import Mathlib

/-!
Verification development for the AAP design-sheet-to-inventory compiler.

The definitions below are a shallow embedding of the Python sources
`src/generate_upload_inventory_and_create_dynamic_workflow.py` (namespace `AAP`,
the primary compiler) and `src/inventory.py` (namespace `AAP.InvPy`, the
near-duplicate compiler).  Pandas cells are modelled by `AAP.PCell`
(a cell is either NaN or a string; a missing column is `Option.none`);
Python exceptions that the code catches locally are modelled by `Option`,
uncaught ones by `Except`.  Python `dict`s are modelled by insertion-ordered
association lists.
-/

namespace AAP

/-! ## String helpers modelling Python `str` operations (ASCII fragment) -/

/-- The whitespace characters stripped by Python's `str.strip()` (ASCII set). -/
def isPySpace (c : Char) : Bool :=
  c = ' ' || c = '\t' || c = '\n' || c = '\r' || c = '\x0b' || c = '\x0c'

/-- Strip leading and trailing Python whitespace from a character list. -/
def stripChars (l : List Char) : List Char :=
  ((l.dropWhile isPySpace).reverse.dropWhile isPySpace).reverse

/-- Python `s.strip()`. -/
def pyStrip (s : String) : String := ⟨stripChars s.data⟩

/-- Python `s.lower()` (ASCII fragment). -/
def pyLower (s : String) : String := ⟨s.data.map Char.toLower⟩

/-- Split a character list at every occurrence of `c`, keeping empty pieces,
like Python `str.split(sep)` with an explicit separator. -/
def splitCh (c : Char) : List Char → List (List Char)
  | [] => [[]]
  | x :: xs =>
    let r := splitCh c xs
    if x = c then [] :: r
    else
      match r with
      | [] => [[x]]
      | h :: t => (x :: h) :: t

/-- Python `s.split(sep)` for a one-character separator. -/
def pySplit (sep : Char) (s : String) : List String :=
  (splitCh sep s.data).map (fun l => ⟨l⟩)

/-- Python `c in s` for a one-character needle. -/
def containsCh (c : Char) (s : String) : Bool := s.data.contains c

/-- Python `s.count(c)` for a one-character needle. -/
def countCh (c : Char) (s : String) : Nat := s.data.count c

/-- Python `s.rsplit(sep, 1)` for a one-character separator, returning
`some (before, after)` when the separator occurs, `none` otherwise. -/
def rsplitLast (c : Char) (l : List Char) : Option (List Char × List Char) :=
  let rev := l.reverse
  let post := rev.takeWhile (fun x => x ≠ c)
  match rev.dropWhile (fun x => x ≠ c) with
  | [] => none
  | _ :: rest => some (rest.reverse, post.reverse)

/-- Python `str.replace('.', '', 1)`: remove the first dot, if any. -/
def removeFirstDot : List Char → List Char
  | [] => []
  | x :: xs => if x = '.' then xs else x :: removeFirstDot xs

/-- Nonempty all-digit check, modelling Python `str.isdigit()` on ASCII data. -/
def isDigits (l : List Char) : Bool := !l.isEmpty && l.all (fun c => c.isDigit)

/-- Numeric value of a digit list (most significant first). -/
def natVal (l : List Char) : Nat :=
  l.foldl (fun a c => a * 10 + (c.toNat - 48)) 0

/-- Python `int(s)`: optional surrounding whitespace, optional sign, digits.
(Underscore separators, accepted by CPython, are outside the modelled fragment.) -/
def pyInt (l : List Char) : Option Int :=
  match stripChars l with
  | '-' :: r => if isDigits r then some (-(natVal r : Int)) else none
  | '+' :: r => if isDigits r then some ((natVal r : Int)) else none
  | r => if isDigits r then some ((natVal r : Int)) else none

/-- Python `int(float(s))` for finite decimal literals: optional sign, digits
with at most one dot, truncation toward zero.  Exponents, `inf` and `nan`
literals are outside the modelled fragment (they raise or are rejected just
like unparseable strings, which this model maps to `none`). -/
def pyIntFloat (l : List Char) : Option Int :=
  let t := stripChars l
  let p : Int × List Char :=
    match t with
    | '-' :: r => (-1, r)
    | '+' :: r => (1, r)
    | r => (1, r)
  match splitCh '.' p.2 with
  | [ip] => if isDigits ip then some (p.1 * (natVal ip : Int)) else none
  | [ip, fp] =>
    if (ip.all (fun c => c.isDigit) && fp.all (fun c => c.isDigit)) &&
        !(ip.isEmpty && fp.isEmpty) then
      some (p.1 * (natVal ip : Int))
    else none
  | _ => none

/-- Python `range(a, b + 1)` as a list (empty when `a > b`). -/
def pyRangeIncl (a b : Int) : List Int :=
  (List.range (b + 1 - a).toNat).map (fun k => a + k)

/-! ## IPv4 parsing, modelling the `ipaddress` standard-library fragment used -/

/-- One dotted-quad octet: 1–3 digits, value ≤ 255, no leading zero
(as in Python ≥ 3.9's `ipaddress`). -/
def parseOctet (l : List Char) : Option Nat :=
  if isDigits l then
    if l.length ≤ 3 ∧ (l.length = 1 ∨ l.head? ≠ some '0') then
      if natVal l ≤ 255 then some (natVal l) else none
    else none
  else none

/-- Parse a dotted-quad IPv4 address to its 32-bit numeric value, modelling
`ipaddress.ip_address` / the address part of `IPv4Network` on IPv4 string
input (IPv6 and integer inputs are outside the modelled fragment). -/
def parseIPv4 (l : List Char) : Option Nat :=
  match splitCh '.' l with
  | [a, b, c, d] =>
    match parseOctet a, parseOctet b, parseOctet c, parseOctet d with
    | some w, some x, some y, some z =>
      some (w * 16777216 + x * 65536 + y * 256 + z)
    | _, _, _, _ => none
  | _ => none

/-- Parse a prefix length `0..32`. -/
def parsePrefixLen (l : List Char) : Option Nat :=
  if isDigits l then
    if l.length = 1 ∨ l.head? ≠ some '0' then
      if natVal l ≤ 32 then some (natVal l) else none
    else none
  else none

/-- Python `ipaddress.IPv4Network(s, strict=False).network_address` as a numeric
value, on dotted-quad input with an optional `/len` suffix (a bare address
gets a /32 mask); host bits are masked off.  Netmask-style suffixes are
outside the modelled fragment. -/
def pyIPv4NetworkNA (l : List Char) : Option Nat :=
  match splitCh '/' l with
  | [a] => parseIPv4 a
  | [a, p] =>
    match parseIPv4 a, parsePrefixLen p with
    | some ip, some pl => some (ip - ip % 2 ^ (32 - pl))
    | _, _ => none
  | _ => none

/-- Render a 32-bit numeric address as a dotted quad. -/
def ipToStr (n : Nat) : String :=
  toString (n / 16777216 % 256) ++ "." ++ toString (n / 65536 % 256) ++ "." ++
    toString (n / 256 % 256) ++ "." ++ toString (n % 256)

/-! ## Pandas cells and association lists -/

/-- A pandas cell as seen by the compiler: either NaN (empty sheet cell) or a
string value.  A missing column is represented by `Option.none` around it. -/
inductive PCell where
  | nan : PCell
  | str : String → PCell
deriving DecidableEq

/-- Python `str(cell)`: `str(float('nan')) = "nan"`. -/
def pcellStr : PCell → String
  | .nan => "nan"
  | .str s => s

/-- Python `str(row.get(col, ""))`: missing column gives the empty string. -/
def getS : Option PCell → String
  | none => ""
  | some v => pcellStr v

/-- Python truthiness of `row.get(col)`: `None` and `""` are falsy,
NaN and nonempty strings are truthy. -/
def cellTruthy : Option PCell → Bool
  | none => false
  | some .nan => true
  | some (.str s) => s ≠ ""

/-- First-match association-list lookup (Python `dict` access / `in`). -/
def lookupA {κ ν : Type} [DecidableEq κ] : List (κ × ν) → κ → Option ν
  | [], _ => none
  | (a, b) :: t, key => if a = key then some b else lookupA t key

/-- Lookup with a default (Python `defaultdict` read). -/
def lookupD {κ ν : Type} [DecidableEq κ] (l : List (κ × ν)) (key : κ) (d : ν) : ν :=
  (lookupA l key).getD d

/-- Python `dict[key] = value`: replace in place, or append a new binding. -/
def setA {κ ν : Type} [DecidableEq κ] : List (κ × ν) → κ → ν → List (κ × ν)
  | [], key, v => [(key, v)]
  | (a, b) :: t, key, v => if a = key then (a, v) :: t else (a, b) :: setA t key v

/-- Python `if key not in d: d[key] = dflt` followed by an in-place mutation `f` of
`d[key]` — the host/group insertion pattern of `build_inventory`. -/
def updOrAppend {κ ν : Type} [DecidableEq κ] :
    List (κ × ν) → κ → ν → (ν → ν) → List (κ × ν)
  | [], key, d, f => [(key, f d)]
  | (a, b) :: t, key, d, f =>
    if a = key then (a, f b) :: t else (a, b) :: updOrAppend t key d f

/-! ## IP Range Expander
(`InventoryGenerator.expand_ip_range` of the primary compiler.)
The second component counts the warnings logged (the `except` branch). -/

/-- Process one comma-separated token of the range string: the loop body of
`expand_ip_range`.  Accumulator: (addresses so far, warnings so far). -/
def handlePart (acc : List String × Nat) (part0 : String) : List String × Nat :=
  let part := pyStrip part0
  if part = "" then acc
  else if containsCh '-' part then
    if countCh '.' part = 3 then
      match rsplitLast '.' part.data with
      | none => acc
      | some pr =>
        match splitCh '-' pr.2 with
        | [sa, sb] =>
          match pyInt sa, pyInt sb with
          | some a, some b =>
            (acc.1 ++ (pyRangeIncl a b).map (fun i => (⟨pr.1⟩ : String) ++ "." ++ toString i),
             acc.2)
          | _, _ => (acc.1, acc.2 + 1)
        | _ => (acc.1, acc.2 + 1)
    else acc
  else (acc.1 ++ [part], acc.2)

/-- Fold of `handlePart` over the comma-separated tokens. -/
def expandParts (parts : List String) : List String × Nat :=
  parts.foldl handlePart ([], 0)

/-- The body of `expand_ip_range` on a string argument: blank input short-circuits to `[]`. -/
def expandIpRangeStr (s : String) : List String × Nat :=
  if pyStrip s = "" then ([], 0) else expandParts (pySplit ',' s)

/-- The full `expand_ip_range` on a cell: `pd.isna` short-circuits NaN to `[]`. -/
def expandIpRange : PCell → List String × Nat
  | .nan => ([], 0)
  | .str s => expandIpRangeStr s

/-! ## Allocator state (`__init__`: `ip_counters`, `vm_counters`) -/

/-- The two `defaultdict(int)` counter maps owned by an `InventoryGenerator`. -/
structure GenState where
  ipCounters : List ((String × String) × Nat)
  vmCounters : List (String × Nat)
deriving DecidableEq

/-- Freshly constructed generator state (`__init__`). -/
def initState : GenState := ⟨[], []⟩

/-- Method `InventoryGenerator.allocate_ip`.  The raised `ValueError` on an empty
pool is modelled by `Except.error` carrying the exception message; the
state component is threaded unchanged in that case. -/
def allocateIp (st : GenState) (vlanSet bridge : String) (ipPool : List String) :
    Except String String × GenState :=
  if ipPool.isEmpty then
    (.error ("Empty IP pool for " ++ vlanSet ++ "/" ++ bridge), st)
  else
    let key := (vlanSet, bridge)
    let idx := lookupD st.ipCounters key 0 % ipPool.length
    let st' : GenState :=
      { st with ipCounters := setA st.ipCounters key (lookupD st.ipCounters key 0 + 1) }
    (.ok (ipPool.getD idx ""), st')

/-! ## Interface/Route Resolver (`create_network_interface`) -/

/-- One row of the `VLANGroup` sheet as read by the primary compiler.
`none` on a field means the column is absent from the sheet. -/
structure VlanRow where
  vlanSet : String
  vlanId : Option PCell
  vmStartips : Option PCell
  containerStartip : Option PCell
  vmlaunchGw : Option PCell
  otherVlansGw : Option PCell
  vlanSubnet : Option PCell
deriving DecidableEq

/-- A network interface dictionary (`bridge`, `ipaddress`, optional `gw`). -/
structure NetInterface where
  bridge : String
  ipaddress : String
  gw : Option String
deriving DecidableEq

/-- The return dictionary of `create_network_interface`. -/
structure NetConfig where
  interface : NetInterface
  route : Option String
deriving DecidableEq

/-- The route computation of `create_network_interface` (lines 255–264):
emitted only when the stripped other-VLANs gateway string is nonempty,
differs from the stripped local gateway string, and a nonempty subnet
string parses as an IPv4 network (parse failures are warned and yield no
route). -/
def routeFor (otherGw localGw subnet bridge : String) : Option String :=
  if otherGw ≠ "" ∧ otherGw ≠ localGw ∧ subnet ≠ "" then
    match pyIPv4NetworkNA subnet.data with
    | some na => some (ipToStr na ++ "/24 via " ++ otherGw ++ " dev dpbr_" ++ bridge)
    | none => none
  else none

/-- The pool-column selection of `create_network_interface`:
first of `VM startips`, `Container startip` that is present with a
non-blank string form. -/
def pickIpCol (vlan : VlanRow) : Option PCell :=
  let pick : Option PCell → Option PCell := fun o =>
    o.bind (fun v => if pyStrip (pcellStr v) = "" then none else some v)
  (pick vlan.vmStartips).orElse (fun _ => pick vlan.containerStartip)

/-- Method `InventoryGenerator.create_network_interface`.  Returns `none` when the
method returns `None` (no usable pool column, empty expanded pool, or an
exception caught by the method's `except` handler — a missing/unparseable
`VlanID`). -/
def createNetworkInterface (st : GenState) (vlanSet : String) (vlan : VlanRow) :
    Option NetConfig × GenState :=
  match pickIpCol vlan with
  | none => (none, st)
  | some cell =>
    let ipPool := (expandIpRange cell).1
    if ipPool = [] then (none, st)
    else
      match vlan.vlanId with
      | none => (none, st)
      | some idc =>
        match pyIntFloat (pcellStr idc).data with
        | none => (none, st)
        | some bid =>
          let bridge := toString bid
          match allocateIp st vlanSet bridge ipPool with
          | (.error _, st') => (none, st')
          | (.ok ip, st') =>
            let vmlaunchGw := pyStrip (getS vlan.vmlaunchGw)
            let iface : NetInterface :=
              { bridge := "dpbr_" ++ bridge
                ipaddress := ip ++ "/24"
                gw := if vmlaunchGw ≠ "" ∧ pyLower vmlaunchGw ≠ "nan" then
                        some vmlaunchGw
                      else none }
            let otherGw := pyStrip (getS vlan.otherVlansGw)
            let subnet := pyStrip (getS vlan.vlanSubnet)
            (some { interface := iface, route := routeFor otherGw vmlaunchGw subnet bridge },
             st')

/-! ## Resource Resolver (the resource/partition split in `create_vm_config`) -/

/-- A partition-map value: integer after coercion, or the original string. -/
inductive PyVal where
  | i : Int → PyVal
  | s : String → PyVal
deriving DecidableEq

/-- Helper `safe_convert` of `create_vm_config`: `None` for blank values, integer
coercion for strings that pass the `replace('.','',1).isdigit()` test, the
original value otherwise (a `ValueError`/`TypeError` also falls back to the
original value — unreachable for values passing the digit test). -/
def safeConvert (v : String) : Option PyVal :=
  if v = "" then none
  else if isDigits (removeFirstDot v.data) then
    match pyIntFloat v.data with
    | some n => some (.i n)
    | none => some (.s v)
  else some (.s v)

/-- The `partition` dict comprehension of `create_vm_config`: every
non-sizing, non-`VMType` field whose `safe_convert` is not `None`.
(`ResourceCfg` is loaded with `dtype=str` and `fillna("")`, so values are
always strings, never `None`/NaN.) -/
def buildPartition : List (String × String) → List (String × PyVal)
  | [] => []
  | (k, v) :: rest =>
    let tail := buildPartition rest
    if k = "VCPU" ∨ k = "RAM" ∨ k = "DataDiskSize" ∨ k = "VMType" then tail
    else
      match safeConvert v with
      | some pv => (k, pv) :: tail
      | none => tail

/-- The sizing keys extracted into `vm_resources`, in loop order. -/
def sizingKeys : List String := ["VCPU", "RAM", "DataDiskSize"]

/-- The contribution of one sizing key to `vm_resources`: present and
non-blank values are coerced by `int(float(·))`; a coercion failure is
warned and the key skipped (`continue`). -/
def sizingEntry (res : List (String × String)) (k : String) : Option (String × Int) :=
  match lookupA res k with
  | none => none
  | some v =>
    if v = "" then none
    else (pyIntFloat v.data).map (fun n => (k, n))

/-- The `vm_resources` loop of `create_vm_config` (lines 328–336). -/
def extractVmResources (res : List (String × String)) : List (String × Int) :=
  (sizingEntry res "VCPU").toList ++ (sizingEntry res "RAM").toList ++
    (sizingEntry res "DataDiskSize").toList

/-! ## VM assembly (`create_vm_config`) -/

/-- One output VM dictionary. -/
structure VMRecord where
  name : String
  vm_type : String
  networkInterface : List NetInterface
  route : Option (List String)
  vm_partition : List (String × PyVal)
  vm_resource : List (String × Int)
deriving DecidableEq

/-- One iteration of the per-VLAN-row loop of `create_vm_config`: append the
resolved interface (and route, when emitted) to the accumulators. -/
def riStep (vlanSet : String) (acc : List NetInterface × List String × GenState)
    (vlan : VlanRow) : List NetInterface × List String × GenState :=
  match createNetworkInterface acc.2.2 vlanSet vlan with
  | (some cfg, st') =>
    (acc.1 ++ [cfg.interface],
     (match cfg.route with
      | some r => acc.2.1 ++ [r]
      | none => acc.2.1),
     st')
  | (none, st') => (acc.1, acc.2.1, st')

/-- The per-VLAN-row loop of `create_vm_config`: collect interfaces and
routes over all VLAN rows of the scope, threading the allocator state. -/
def resolveInterfaces (st : GenState) (vlanSet : String) (rows : List VlanRow) :
    List NetInterface × List String × GenState :=
  rows.foldl (riStep vlanSet) ([], [], st)

/-- Method `InventoryGenerator.create_vm_config`: increment the per-scope VM
counter, resolve interfaces; on an empty interface list roll the counter
back and return `None`, otherwise attach resources and return the record. -/
def createVmConfig (st : GenState) (vlanSet : String) (vlanRows : List VlanRow)
    (vmType : String) (resources : List (String × List (String × String))) :
    Option VMRecord × GenState :=
  let c := lookupD st.vmCounters vlanSet 0 + 1
  let st1 : GenState := { st with vmCounters := setA st.vmCounters vlanSet c }
  let vmName := vlanSet ++ "_vm" ++ toString c
  let r := resolveInterfaces st1 vlanSet vlanRows
  if r.1 = [] then
    (none,
     { r.2.2 with
        vmCounters := setA r.2.2.vmCounters vlanSet (lookupD r.2.2.vmCounters vlanSet 0 - 1) })
  else
    let res := (lookupA resources vmType).getD []
    (some { name := vmName
            vm_type := vmType
            networkInterface := r.1
            route := if r.2.1 = [] then none else some r.2.1
            vm_partition := buildPartition res
            vm_resource := extractVmResources res },
     r.2.2)

/-! ## VM/Host/Group Assembler (`build_inventory`) -/

/-- A host entry: the row's raw `BM IP` cell as `ansible_host`, plus the VM list. -/
structure HostEntry where
  ansible_host : PCell
  vms : List VMRecord
deriving DecidableEq

/-- The `hosts` mapping of one scope group. -/
abbrev Hosts := List (String × HostEntry)

/-- Mapping `inventory["all"]["children"]`: scope → group (modelled by its `hosts`). -/
abbrev Children := List (String × Hosts)

/-- One row of the `VMLaunchInput` sheet: the cells the compiler reads.
`configs` are the row's cells at the `Config` columns, in column order. -/
structure DesignRow where
  bmIp : Option PCell
  vlanSetId : Option PCell
  vmCount : Option PCell
  configs : List PCell
deriving DecidableEq

/-- Python `int(float(row.get("VM Count", 0)))` with `ValueError`/`TypeError`
defaulting to 0. -/
def rowVmCount : Option PCell → Int
  | none => 0
  | some .nan => 0
  | some (.str s) => (pyIntFloat s.data).getD 0

/-- Ghost record of one successful VM creation (scope, primary address,
record), used to state completeness of the host grouping. -/
structure CreatedVM where
  scope : String
  addr : String
  vm : VMRecord
deriving DecidableEq

/-- The host-insertion step of `build_inventory` (lines 407–414): ensure the
scope group and the host entry exist, then append the VM to the entry. -/
def insertVm (ch : Children) (vlanSet : String) (bmIp : PCell) (hostIp : String)
    (vm : VMRecord) : Children :=
  updOrAppend ch vlanSet []
    (fun hosts =>
      updOrAppend hosts hostIp { ansible_host := bmIp, vms := [] }
        (fun he => { he with vms := he.vms ++ [vm] }))

/-- The VM-type selector of one slot:
`str(row[vm_config_cols[i]]).strip() if i < len(vm_config_cols) else ""`. -/
def slotVmType : Option PCell → String
  | none => ""
  | some c => pyStrip (pcellStr c)

/-- Python `vm["networkInterface"][0]["ipaddress"].split("/")[0]`: the address part
of an interface's `ipaddress` value. -/
def primaryIp (iface : NetInterface) : String := (pySplit '/' iface.ipaddress).headD ""

/-- One iteration of the per-slot loop of `build_inventory`: resolve the
slot's VM type (blank/`"nan"`/out-of-range selectors skip the slot), create
the VM, and insert it keyed by the primary address of its first interface.
The third accumulator component is the ghost creation log. -/
def slotStep (vlanSet : String) (bmIp : PCell) (vlanRows : List VlanRow)
    (resources : List (String × List (String × String))) (cfg? : Option PCell)
    (acc : GenState × Children × List CreatedVM) :
    GenState × Children × List CreatedVM :=
  if slotVmType cfg? = "" ∨ slotVmType cfg? = "nan" then acc
  else
    match createVmConfig acc.1 vlanSet vlanRows (slotVmType cfg?) resources with
    | (none, st') => (st', acc.2.1, acc.2.2)
    | (some vm, st') =>
      match vm.networkInterface.head? with
      | none => (st', acc.2.1, acc.2.2)
      | some if0 =>
        (st',
         insertVm acc.2.1 vlanSet bmIp (primaryIp if0) vm,
         acc.2.2 ++ [{ scope := vlanSet, addr := primaryIp if0, vm := vm }])

/-- One iteration of the per-row loop of `build_inventory`: skip rows with a
falsy management address, blank scope, or zero VM count, and rows whose
scope matches no VLAN row; otherwise run the slot loop. -/
def rowStep (vlanTable : List VlanRow)
    (resources : List (String × List (String × String))) (row : DesignRow)
    (acc : GenState × Children × List CreatedVM) :
    GenState × Children × List CreatedVM :=
  if cellTruthy row.bmIp &&
      (pyStrip (getS row.vlanSetId) ≠ "" && rowVmCount row.vmCount ≠ 0) then
    if vlanTable.filter (fun r => r.vlanSet = pyStrip (getS row.vlanSetId)) = [] then acc
    else
      match row.bmIp with
      | none => acc
      | some bm =>
        (List.range (rowVmCount row.vmCount).toNat).foldl
          (fun a i =>
            slotStep (pyStrip (getS row.vlanSetId)) bm
              (vlanTable.filter (fun r => r.vlanSet = pyStrip (getS row.vlanSetId)))
              resources (row.configs[i]?) a)
          acc
  else acc

/-- The three input tables the assembler consumes (already loaded and
normalized by the out-of-scope Excel loader). -/
structure GenInput where
  rows : List DesignRow
  vlanTable : List VlanRow
  resources : List (String × List (String × String))
deriving DecidableEq

/-- Method `build_inventory` starting from an explicit generator state. -/
def buildInventoryFrom (st0 : GenState) (inp : GenInput) :
    GenState × Children × List CreatedVM :=
  inp.rows.foldl (fun acc row => rowStep inp.vlanTable inp.resources row acc)
    (st0, [], [])

/-- Method `build_inventory` as invoked on a freshly constructed generator. -/
def buildInventoryG (inp : GenInput) : GenState × Children × List CreatedVM :=
  buildInventoryFrom initState inp

/-- The output inventory root: global vars (copied from the loader) and the
children tree. -/
structure Inventory where
  vars : List (String × String)
  children : Children
deriving DecidableEq

/-- One complete compilation run: fresh `__init__` state, then `build_inventory`. -/
def runCompiler (globalVars : List (String × String)) (inp : GenInput) : Inventory :=
  { vars := globalVars, children := (buildInventoryFrom initState inp).2.1 }

/-- The VM list stored under `children[scope].hosts[addr]` (empty when the
group or host entry is absent). -/
def vmsAt (ch : Children) (s a : String) : List VMRecord :=
  match lookupA ch s with
  | none => []
  | some hosts =>
    match lookupA hosts a with
    | none => []
    | some he => he.vms

/-- The host entry stored under `children[scope].hosts[addr]`. -/
def hostAt (ch : Children) (s a : String) : Option HostEntry :=
  (lookupA ch s).bind (fun hosts => lookupA hosts a)

/-! ## The near-duplicate compiler `src/inventory.py`

`inventory.py` implements the same transformation with a second code path:
no allocator/counter objects (VM names and pool indices come from the slot
index), regex-based range expansion with address validation, and plain
dictionary assignment when inserting hosts and groups.  Uncaught Python
exceptions (its `build_inventory` has no exception handler) are modelled by
`Except.error`. -/

namespace InvPy

/-- One row of the `VLANGroup` sheet as read by `inventory.py` (note the
different column names: `Vlan`, lowercase `vm startips`, `Management GW`). -/
structure PVlanRow where
  vlanSet : String
  vlan : Option PCell
  vmStartips : Option PCell
  containerStartip : Option PCell
  managementGw : Option PCell
  otherVlansGw : Option PCell
deriving DecidableEq

/-- An interface dictionary of `inventory.py` (its `gw` is the raw cell). -/
structure PNetIface where
  bridge : String
  ipaddress : String
  gw : Option PCell
deriving DecidableEq

/-- One output VM dictionary of `inventory.py`. -/
structure PVMRecord where
  name : String
  vm_type : String
  networkInterface : List PNetIface
  route : Option (List String)
  vm_partition : List (String × PyVal)
  vm_resource : List (String × Int)
deriving DecidableEq

/-- A host entry of `inventory.py` (always created with a one-element VM list). -/
structure PHostEntry where
  ansible_host : PCell
  vms : List PVMRecord
deriving DecidableEq

abbrev PHosts := List (String × PHostEntry)
abbrev PChildren := List (String × PHosts)

/-- One row of `VMLaunchInput` as read by `inventory.py`. -/
structure PDesignRow where
  bmIp : Option PCell
  vlanSetId : Option PCell
  vmCount : Option PCell
  configs : List PCell
deriving DecidableEq

/-- Python `re.match(r'(\d+\.\d+\.\d+\.)(\d+)-(\d+)', part)`: parse from the start
of the token (trailing characters are ignored, as `re.match` does not anchor
the end); returns (prefix including its trailing dot, start, end). -/
def regexRangeMatch (l : List Char) : Option (List Char × Nat × Nat) :=
  let d1 := l.takeWhile (fun c => c.isDigit)
  let r1 := l.dropWhile (fun c => c.isDigit)
  if d1 = [] then none else
  match r1 with
  | '.' :: l2 =>
    let d2 := l2.takeWhile (fun c => c.isDigit)
    let r2 := l2.dropWhile (fun c => c.isDigit)
    if d2 = [] then none else
    match r2 with
    | '.' :: l3 =>
      let d3 := l3.takeWhile (fun c => c.isDigit)
      let r3 := l3.dropWhile (fun c => c.isDigit)
      if d3 = [] then none else
      match r3 with
      | '.' :: l4 =>
        let d4 := l4.takeWhile (fun c => c.isDigit)
        let r4 := l4.dropWhile (fun c => c.isDigit)
        if d4 = [] then none else
        match r4 with
        | '-' :: l5 =>
          let d5 := l5.takeWhile (fun c => c.isDigit)
          if d5 = [] then none
          else some (d1 ++ '.' :: d2 ++ '.' :: d3 ++ ['.'], natVal d4, natVal d5)
        | _ => none
      | _ => none
    | _ => none
  | _ => none

/-- Method `InventoryGenerator.expand_ip_range` of `inventory.py`: regex-based range
expansion followed by `ipaddress.ip_address` validation; invalid addresses
are skipped with a warning (second component counts the warnings). -/
def expandIpRangePy (s : String) : List String × Nat :=
  let ips := (pySplit ',' s).foldl
    (fun (acc : List String) part0 =>
      let part := pyStrip part0
      if containsCh '-' part then
        match regexRangeMatch part.data with
        | some m =>
          acc ++ (pyRangeIncl (m.2.1 : Int) (m.2.2 : Int)).map
            (fun i => (⟨m.1⟩ : String) ++ toString i)
        | none => acc
      else if part ≠ "" then acc ++ [part] else acc)
    []
  ips.foldl
    (fun (acc : List String × Nat) ip =>
      if (parseIPv4 ip.data).isSome then (acc.1 ++ [ip], acc.2) else (acc.1, acc.2 + 1))
    ([], 0)

/-- The per-VLAN-row interface loop of `build_inventory` in `inventory.py`
for slot `i`: the first of the two recognized pool columns that is *present*
is used (regardless of its value); rows with NaN/blank/unexpandable pools are
skipped; the address is `start_ips[i % len(start_ips)]`; a missing `Vlan`
column raises an uncaught `KeyError`. -/
def interfacesForSlot (vlanRows : List PVlanRow) (i : Nat) :
    Except String (List PNetIface × List String) :=
  vlanRows.foldlM
    (fun (acc : List PNetIface × List String) vlan => do
      let raw : Option PCell :=
        match vlan.vmStartips with
        | some v => some v
        | none => vlan.containerStartip
      match raw with
      | none => pure acc
      | some .nan => pure acc
      | some (.str s) =>
        if pyStrip s = "" then pure acc
        else
          let startIps := (expandIpRangePy s).1
          if startIps = [] then pure acc
          else
            match vlan.vlan with
            | none => throw "KeyError: Vlan"
            | some bcell =>
              let bridge := pcellStr bcell
              let ip := startIps.getD (i % startIps.length) ""
              let iface : PNetIface :=
                { bridge := "dpbr_" ++ bridge
                  ipaddress := ip ++ "/24"
                  gw :=
                    match vlan.managementGw with
                    | some (.str g) => if pyStrip g ≠ "" then some (.str g) else none
                    | _ => none }
              let acc1 := (acc.1 ++ [iface], acc.2)
              match vlan.otherVlansGw with
              | some (.str og) =>
                if pyStrip og ≠ "" then
                  match parseIPv4 ip.data with
                  | some ipn =>
                    pure (acc1.1,
                      acc1.2 ++
                        [ipToStr (ipn - ipn % 256) ++ "/24 via " ++ og ++ " dev dpbr_" ++ bridge])
                  | none => throw "ValueError: ip_network"
                else pure acc1
              | _ => pure acc1)
    ([], [])

/-- The partition split of `inventory.py`: non-sizing, non-blank fields,
coerced with plain `int(·)` and kept as the original string on `ValueError`
(so `"4.0"` stays a string here, unlike in the primary compiler). -/
def buildPartitionPy : List (String × String) → List (String × PyVal)
  | [] => []
  | (k, v) :: rest =>
    let tail := buildPartitionPy rest
    if k = "VCPU" ∨ k = "RAM" ∨ k = "DataDiskSize" then tail
    else if v = "" then tail
    else
      match pyInt v.data with
      | some n => (k, .i n) :: tail
      | none => (k, .s v) :: tail

/-- The `vm_resource` loop of `inventory.py`: plain `int(val)` with no
exception handler — a non-integer sizing value crashes the whole build. -/
def buildResourcePy (res : List (String × String)) : Except String (List (String × Int)) :=
  sizingKeys.foldlM
    (fun (acc : List (String × Int)) k =>
      let val := (lookupA res k).getD ""
      if val = "" then pure acc
      else
        match pyInt val.data with
        | some n => pure (acc ++ [(k, n)])
        | none => throw "ValueError: invalid literal for int()")
    []

/-- Python `str(vm_row.get(vm_config_cols[i], ...)).strip()` with the
`f"VMConfig{i+1}"` fallback for out-of-range slots. -/
def vmTypePy (configs : List PCell) (i : Nat) : String :=
  match configs[i]? with
  | some c => pyStrip (pcellStr c)
  | none => "VMConfig" ++ toString (i + 1)

/-- The body of the per-slot loop of `build_inventory` in `inventory.py`:
returns `none` when the slot yields no interfaces, otherwise the primary
address together with the VM record named by the slot index (`_vm{i+1}`). -/
def buildVmPy (vlanRows : List PVlanRow) (vlanSet : String)
    (resources : List (String × List (String × String))) (configs : List PCell)
    (i : Nat) : Except String (Option (String × PVMRecord)) := do
  let vmName := vlanSet ++ "_vm" ++ toString (i + 1)
  let vmType := vmTypePy configs i
  let r ← interfacesForSlot vlanRows i
  if r.1 = [] then pure none
  else
    let res := (lookupA resources vmType).getD []
    let vr ← buildResourcePy res
    pure (some
      ((pySplit '/' ((r.1.headD ⟨"", "", none⟩).ipaddress)).headD "",
       { name := vmName
         vm_type := vmType
         networkInterface := r.1
         route := if r.2 = [] then none else some r.2
         vm_partition := buildPartitionPy res
         vm_resource := vr }))

/-- Python `str(vm_row.get("Vlan set ID")).strip()` — a missing column stringifies
`None` to `"None"`. -/
def vlanSetStrPy : Option PCell → String
  | none => pyStrip "None"
  | some c => pyStrip (pcellStr c)

/-- Python `int(vm_row.get("VM Count", 0)) if not pd.isna(...) else 0`: a missing
column or NaN gives 0; a non-integer string raises uncaught. -/
def vmCountPy : Option PCell → Except String Int
  | none => pure 0
  | some .nan => pure 0
  | some (.str s) =>
    match pyInt s.data with
    | some n => pure n
    | none => throw "ValueError: invalid literal for int()"

/-- One iteration of the per-row loop of `build_inventory` in `inventory.py`.
Note the two plain dictionary assignments:
`hosts_dict[ip] = {...}` *replaces* any host entry a previous slot created at
the same primary address, and `children[vlan_set] = {...}` replaces any group
a previous row created for the same scope. -/
def rowStepPy (vlanTable : List PVlanRow)
    (resources : List (String × List (String × String))) (ch : PChildren)
    (row : PDesignRow) : Except String PChildren := do
  let vlanSet := vlanSetStrPy row.vlanSetId
  let vmCount ← vmCountPy row.vmCount
  if cellTruthy row.bmIp && (vlanSet ≠ "" && vmCount ≠ 0) then
    let vlanRows := vlanTable.filter (fun r => r.vlanSet = vlanSet)
    if vlanRows = [] then pure ch
    else
      match row.bmIp with
      | none => pure ch
      | some bm => do
        let hostsDict ← (List.range vmCount.toNat).foldlM
          (fun (hd : PHosts) i => do
            match ← buildVmPy vlanRows vlanSet resources row.configs i with
            | none => pure hd
            | some p => pure (setA hd p.1 { ansible_host := bm, vms := [p.2] }))
          []
        if hostsDict = [] then pure ch
        else pure (setA ch vlanSet hostsDict)
  else pure ch

/-- Method `build_inventory` of `inventory.py` (the `all.children` mapping; the
`all.vars` block is copied verbatim from the loader and omitted here). -/
def buildInventoryPy (rows : List PDesignRow) (vlanTable : List PVlanRow)
    (resources : List (String × List (String × String))) : Except String PChildren :=
  rows.foldlM (rowStepPy vlanTable resources) []

end InvPy

/-! ## Association-list and state lemmas -/

theorem lookupA_setA_self {κ ν : Type} [DecidableEq κ] (l : List (κ × ν)) (key : κ) (v : ν) :
    lookupA (setA l key v) key = some v := by
  induction l with
  | nil => simp [setA, lookupA]
  | cons p t ih =>
    obtain ⟨a, b⟩ := p
    by_cases h : a = key
    · subst h; simp [setA, lookupA]
    · simp [setA, lookupA, h, ih]

theorem lookupA_setA_ne {κ ν : Type} [DecidableEq κ] (l : List (κ × ν)) (key key' : κ)
    (v : ν) (h : key' ≠ key) : lookupA (setA l key v) key' = lookupA l key' := by
  induction l with
  | nil => simp [setA, lookupA, Ne.symm h]
  | cons p t ih =>
    obtain ⟨a, b⟩ := p
    by_cases ha : a = key
    · subst ha
      simp [setA, lookupA, Ne.symm h]
    · simp [setA, lookupA, ha, ih]

theorem lookupD_setA_self {κ ν : Type} [DecidableEq κ] (l : List (κ × ν)) (key : κ)
    (v d : ν) : lookupD (setA l key v) key d = v := by
  simp [lookupD, lookupA_setA_self]

theorem lookupD_setA_ne {κ ν : Type} [DecidableEq κ] (l : List (κ × ν)) (key key' : κ)
    (v d : ν) (h : key' ≠ key) : lookupD (setA l key v) key' d = lookupD l key' d := by
  simp [lookupD, lookupA_setA_ne _ _ _ _ h]

theorem lookupA_updOrAppend {κ ν : Type} [DecidableEq κ] (l : List (κ × ν)) (key key' : κ)
    (d : ν) (f : ν → ν) :
    lookupA (updOrAppend l key d f) key' =
      if key' = key then some (f (lookupD l key d)) else lookupA l key' := by
  induction l with
  | nil =>
    by_cases h : key' = key
    · subst h; simp [updOrAppend, lookupA, lookupD]
    · simp [updOrAppend, lookupA, lookupD, h, Ne.symm h]
  | cons p t ih =>
    obtain ⟨a, b⟩ := p
    by_cases ha : a = key
    · subst ha
      by_cases h : key' = a
      · subst h; simp [updOrAppend, lookupA, lookupD]
      · simp [updOrAppend, lookupA, lookupD, h, Ne.symm h]
    · by_cases h : key' = a
      · subst h
        simp [updOrAppend, lookupA, lookupD, ha, Ne.symm ha, ih]
      · by_cases hk : key' = key
        · subst hk
          simp [updOrAppend, lookupA, lookupD, ha, Ne.symm h, ih]
        · simp [updOrAppend, lookupA, lookupD, ha, Ne.symm h, hk, ih]

theorem vmsAt_insertVm (ch : Children) (vs : String) (bm : PCell) (hip : String)
    (vm : VMRecord) (s a : String) :
    vmsAt (insertVm ch vs bm hip vm) s a =
      if s = vs ∧ a = hip then vmsAt ch s a ++ [vm] else vmsAt ch s a := by
  by_cases hs : s = vs
  · subst hs
    by_cases ha : a = hip
    · subst ha
      rw [if_pos ⟨rfl, rfl⟩]
      rcases h1 : lookupA ch s with _ | hosts
      · simp [vmsAt, insertVm, lookupA_updOrAppend, lookupD, h1, lookupA]
      · rcases h2 : lookupA hosts a with _ | he
        · simp [vmsAt, insertVm, lookupA_updOrAppend, lookupD, h1, h2]
        · simp [vmsAt, insertVm, lookupA_updOrAppend, lookupD, h1, h2]
    · rw [if_neg (fun hc => ha hc.2)]
      rcases h1 : lookupA ch s with _ | hosts
      · simp [vmsAt, insertVm, lookupA_updOrAppend, lookupD, h1, ha, Ne.symm ha, lookupA]
      · simp [vmsAt, insertVm, lookupA_updOrAppend, lookupD, h1, ha, Ne.symm ha]
  · rw [if_neg (fun hc => hs hc.1)]
    simp [vmsAt, insertVm, lookupA_updOrAppend, hs]

theorem allocateIp_vmCounters (st : GenState) (vs br : String) (pool : List String) :
    (allocateIp st vs br pool).2.vmCounters = st.vmCounters := by
  unfold allocateIp
  split <;> rfl

theorem createNetworkInterface_vmCounters (st : GenState) (vs : String) (vlan : VlanRow) :
    (createNetworkInterface st vs vlan).2.vmCounters = st.vmCounters := by
  unfold createNetworkInterface
  split
  · rfl
  · dsimp only
    split
    · rfl
    · split
      · rfl
      · split
        · rfl
        · split
          all_goals
            rename_i heq
            have h5 := congrArg (fun p => p.2.vmCounters) heq
            simpa [allocateIp_vmCounters] using h5.symm

theorem riStep_vmCounters (vs : String) (acc : List NetInterface × List String × GenState)
    (vlan : VlanRow) : (riStep vs acc vlan).2.2.vmCounters = acc.2.2.vmCounters := by
  unfold riStep
  split
  all_goals
    rename_i heq
    have h5 := congrArg (fun p => p.2.vmCounters) heq
    simpa [createNetworkInterface_vmCounters] using h5.symm

theorem foldl_riStep_vmCounters (vs : String) (rows : List VlanRow) :
    ∀ acc : List NetInterface × List String × GenState,
      ((rows.foldl (riStep vs) acc).2.2).vmCounters = acc.2.2.vmCounters := by
  induction rows with
  | nil => intro acc; rfl
  | cons r t ih =>
    intro acc
    rw [List.foldl_cons, ih, riStep_vmCounters]

theorem resolveInterfaces_vmCounters (st : GenState) (vs : String) (rows : List VlanRow) :
    ((resolveInterfaces st vs rows).2.2).vmCounters = st.vmCounters := by
  unfold resolveInterfaces
  rw [foldl_riStep_vmCounters]

theorem createVmConfig_name (st : GenState) (vs : String) (rows : List VlanRow)
    (ty : String) (res : List (String × List (String × String))) (vm : VMRecord)
    (st' : GenState) (h : createVmConfig st vs rows ty res = (some vm, st')) :
    vm.name = vs ++ "_vm" ++ toString (lookupD st.vmCounters vs 0 + 1) := by
  simp only [createVmConfig] at h
  split at h
  · exact absurd (congrArg Prod.fst h) (by simp)
  · have h1 := congrArg Prod.fst h
    simp only [Option.some.injEq] at h1
    rw [← h1]

/-- Generic preservation of an invariant by `List.foldl`. -/
theorem foldl_pres {α β : Type} (f : β → α → β) (Q : β → Prop)
    (hf : ∀ b a, Q b → Q (f b a)) : ∀ (l : List α) (b : β), Q b → Q (l.foldl f b) := by
  intro l
  induction l with
  | nil => intro b hb; exact hb
  | cons x xs ih => intro b hb; exact ih _ (hf _ _ hb)

/-- The grouping invariant: the VM list stored under every scope/address is
exactly the successful creations logged for that scope and primary address,
in order. -/
def Pinv (ch : Children) (log : List CreatedVM) : Prop :=
  ∀ s a, vmsAt ch s a =
    (log.filter (fun e => e.scope == s && e.addr == a)).map (fun e => e.vm)

theorem slotStep_pres (vs : String) (bm : PCell) (rows : List VlanRow)
    (res : List (String × List (String × String))) (cfg? : Option PCell)
    (acc : GenState × Children × List CreatedVM) (h : Pinv acc.2.1 acc.2.2) :
    Pinv (slotStep vs bm rows res cfg? acc).2.1 (slotStep vs bm rows res cfg? acc).2.2 := by
  unfold slotStep
  split
  · exact h
  · split
    · exact h
    · split
      · exact h
      · rename_i vm st' hcc if0 hif
        intro s a
        dsimp only
        rw [vmsAt_insertVm, List.filter_append, List.map_append, h s a]
        by_cases hs : s = vs ∧ a = primaryIp if0
        · obtain ⟨hs1, hs2⟩ := hs
          subst hs1; subst hs2
          simp [List.filter]
        · rw [if_neg hs]
          have hne : ¬(vs = s ∧ primaryIp if0 = a) := by
            intro hc
            exact hs ⟨hc.1.symm, hc.2.symm⟩
          rcases Decidable.not_and_iff_or_not.mp hne with hne1 | hne1
          · simp [List.filter, beq_eq_false_iff_ne.mpr hne1]
          · simp [List.filter, beq_eq_false_iff_ne.mpr hne1]

theorem rowStep_pres (vlanTable : List VlanRow)
    (resources : List (String × List (String × String))) (row : DesignRow)
    (acc : GenState × Children × List CreatedVM) (h : Pinv acc.2.1 acc.2.2) :
    Pinv (rowStep vlanTable resources row acc).2.1 (rowStep vlanTable resources row acc).2.2 := by
  unfold rowStep
  split
  · split
    · exact h
    · split
      · exact h
      · exact foldl_pres _ (fun b : GenState × Children × List CreatedVM => Pinv b.2.1 b.2.2)
          (fun b i hb => slotStep_pres _ _ _ _ _ _ hb) _ _ h
  · exact h

theorem buildInventoryFrom_pinv (st0 : GenState) (inp : GenInput) :
    Pinv (buildInventoryFrom st0 inp).2.1 (buildInventoryFrom st0 inp).2.2 := by
  unfold buildInventoryFrom
  refine foldl_pres _ (fun b : GenState × Children × List CreatedVM => Pinv b.2.1 b.2.2)
    (fun b row hb => rowStep_pres _ _ _ _ hb) _ _ ?_
  intro s a
  simp [vmsAt, lookupA]

/-! ## Claim C1 -/

/-- C1 (amended, proved for the primary compiler
`generate_upload_inventory_and_create_dynamic_workflow.py`): for every
compilation run, scope and primary address, the `vms` list stored under
`inventory["all"]["children"][scope].hosts[address]` is exactly the sequence
of successfully created VMRecords of that scope whose primary address is
that address — so VMs sharing a primary address within a scope appear
together under one host entry and none is lost. -/
theorem c1_primary_grouping_complete (inp : GenInput) (scope addr : String) :
    vmsAt (buildInventoryG inp).2.1 scope addr =
      (((buildInventoryG inp).2.2).filter
        (fun e => e.scope == scope && e.addr == addr)).map (fun e => e.vm) := by
  unfold buildInventoryG
  exact buildInventoryFrom_pinv initState inp scope addr

/-- The `VLANGroup` table of the C1 counterexample: one VLAN row for scope
`s1` with a one-address pool, so every VM of the scope resolves to the same
primary address `10.0.1.5`. -/
def c1VlanRows : List InvPy.PVlanRow :=
  [⟨"s1", some (.str "20"), some (.str "10.0.1.5"), none, none, none⟩]

/-- The `VMLaunchInput` table of the C1 counterexample: one row requesting
two VMs on scope `s1`. -/
def c1Rows : List InvPy.PDesignRow :=
  [⟨some (.str "10.0.0.100"), some (.str "s1"), some (.str "2"),
    [.str "small", .str "small"]⟩]

/-- The single interface both VMs of the C1 counterexample resolve to. -/
def c1Iface : InvPy.PNetIface := ⟨"dpbr_20", "10.0.1.5/24", none⟩

/-- The first VM created by the C1 counterexample run. -/
def c1Vm1 : InvPy.PVMRecord := ⟨"s1_vm1", "small", [c1Iface], none, [], []⟩

/-- The second VM created by the C1 counterexample run. -/
def c1Vm2 : InvPy.PVMRecord := ⟨"s1_vm2", "small", [c1Iface], none, [], []⟩

/-- C1 counterexample: in the near-duplicate compiler `inventory.py`
(cited as a source of the claim), both VM slots are successfully created and
resolve to the same primary address `10.0.1.5` in scope `s1`, yet the
produced inventory holds only the second record under that host entry — the
first VMRecord is lost, contradicting the claim that all such records appear
together in the host's `vms` list with none lost. -/
theorem c1_counterexample :
    InvPy.buildVmPy c1VlanRows "s1" [] [.str "small", .str "small"] 0 =
      .ok (some ("10.0.1.5", c1Vm1))
    ∧ InvPy.buildVmPy c1VlanRows "s1" [] [.str "small", .str "small"] 1 =
      .ok (some ("10.0.1.5", c1Vm2))
    ∧ InvPy.buildInventoryPy c1Rows c1VlanRows [] =
      .ok [("s1", [("10.0.1.5", ⟨.str "10.0.0.100", [c1Vm2]⟩)])]
    ∧ c1Vm1 ≠ c1Vm2 :=
  ⟨rfl, rfl, rfl, by decide⟩

/-! ## Claim C4 -/

/-- The results of `n` successive `allocate_ip` calls for one key and pool. -/
def allocRun : GenState → String → String → List String → Nat → List (Except String String)
  | _, _, _, _, 0 => []
  | st, vs, br, pool, n + 1 =>
    (allocateIp st vs br pool).1 :: allocRun (allocateIp st vs br pool).2 vs br pool n

/-- C4: the allocator keeps one zero-initialized counter per (scope, bridge)
key; on a non-empty pool each call returns `pool[counter mod len(pool)]` and
increments exactly that key's counter (other keys are untouched, and a call
for a different key leaves this key's counter unchanged); five allocations
from a fresh three-element pool return the elements at indices
[0, 1, 2, 0, 1]. -/
theorem c4_round_robin (st : GenState) (vs br : String) (pool : List String)
    (k' : String × String) (pool' : List String)
    (h : pool ≠ []) (hk : k' ≠ (vs, br)) :
    (allocateIp st vs br pool).1 =
      .ok (pool.getD (lookupD st.ipCounters (vs, br) 0 % pool.length) "")
    ∧ lookupD (allocateIp st vs br pool).2.ipCounters (vs, br) 0 =
        lookupD st.ipCounters (vs, br) 0 + 1
    ∧ lookupD (allocateIp st vs br pool).2.ipCounters k' 0 = lookupD st.ipCounters k' 0
    ∧ (allocateIp st vs br pool).2.vmCounters = st.vmCounters
    ∧ lookupD (allocateIp st k'.1 k'.2 pool').2.ipCounters (vs, br) 0 =
        lookupD st.ipCounters (vs, br) 0
    ∧ (∀ a b c : String, allocRun initState vs br [a, b, c] 5 =
        [.ok a, .ok b, .ok c, .ok a, .ok b]) := by
  have hne : pool.isEmpty = false := by
    cases pool with
    | nil => exact absurd rfl h
    | cons x xs => rfl
  refine ⟨?_, ?_, ?_, ?_, ?_, ?_⟩
  · simp [allocateIp, hne]
  · simp [allocateIp, hne, lookupD_setA_self]
  · simp [allocateIp, hne, lookupD_setA_ne _ _ _ _ _ hk]
  · simp [allocateIp, hne]
  · cases hp : pool'.isEmpty with
    | true => simp [allocateIp, hp]
    | false =>
      have : (k'.1, k'.2) = k' := rfl
      simp [allocateIp, hp, this, lookupD_setA_ne _ _ _ _ _ (Ne.symm hk)]
  · intro a b c
    simp [allocRun, allocateIp, initState, lookupD, lookupA, setA, List.getD]

/-- Witness for C4 at a concrete state, key and pool. -/
theorem c4_round_robin_witness :
    ((["x", "y"] : List String) ≠ [] ∧ (("s2", "b2") : String × String) ≠ ("s1", "b1"))
    ∧ ((allocateIp initState "s1" "b1" ["x", "y"]).1 =
        .ok ((["x", "y"] : List String).getD
          (lookupD initState.ipCounters ("s1", "b1") 0 % (["x", "y"] : List String).length) "")
       ∧ lookupD (allocateIp initState "s1" "b1" ["x", "y"]).2.ipCounters ("s1", "b1") 0 =
           lookupD initState.ipCounters ("s1", "b1") 0 + 1
       ∧ lookupD (allocateIp initState "s1" "b1" ["x", "y"]).2.ipCounters ("s2", "b2") 0 =
           lookupD initState.ipCounters ("s2", "b2") 0
       ∧ (allocateIp initState "s1" "b1" ["x", "y"]).2.vmCounters = initState.vmCounters
       ∧ lookupD (allocateIp initState "s2" "b2" ["z"]).2.ipCounters ("s1", "b1") 0 =
           lookupD initState.ipCounters ("s1", "b1") 0
       ∧ (∀ a b c : String, allocRun initState "s1" "b1" [a, b, c] 5 =
           [.ok a, .ok b, .ok c, .ok a, .ok b])) :=
  ⟨⟨by decide, by decide⟩,
   c4_round_robin initState "s1" "b1" ["x", "y"] ("s2", "b2") ["z"]
     (by decide) (by decide)⟩

/-! ## Claim C5 -/

/-- C5: allocating from an empty pool raises
`ValueError("Empty IP pool for {scope}/{bridge}")` and changes no allocator
state — the returned state is exactly the input state, so the (scope, bridge)
counter is neither created nor incremented and no address is handed out. -/
theorem c5_empty_pool_error (st : GenState) (vs br : String) :
    allocateIp st vs br [] =
      (.error ("Empty IP pool for " ++ vs ++ "/" ++ br), st) := rfl

/-! ## Claim C8 -/

/-- C8: two compilation runs over identical input tables, each starting from
the freshly initialized allocator/VM-counter state produced by `__init__`,
yield identical results; the complete run output is determined by the global
vars and the fresh-state build alone. -/
theorem c8_deterministic (s1 s2 : GenState) (gv : List (String × String))
    (inp : GenInput) (h1 : s1 = initState) (h2 : s2 = initState) :
    buildInventoryFrom s1 inp = buildInventoryFrom s2 inp
    ∧ runCompiler gv inp = { vars := gv, children := (buildInventoryFrom s1 inp).2.1 } := by
  subst h1; subst h2
  exact ⟨rfl, rfl⟩

/-- A small concrete input for the C8 witness: one design row, one VLAN row. -/
def c8Inp : GenInput :=
  ⟨[⟨some (.str "10.0.0.100"), some (.str "s1"), some (.str "2"),
     [.str "small", .str "small"]⟩],
   [⟨"s1", some (.str "20"), some (.str "10.0.1.5"), none, none, none, none⟩],
   []⟩

/-- Witness for C8 at a concrete input. -/
theorem c8_deterministic_witness :
    (initState = initState ∧ initState = initState)
    ∧ (buildInventoryFrom initState c8Inp = buildInventoryFrom initState c8Inp
       ∧ runCompiler [] c8Inp =
           { vars := [], children := (buildInventoryFrom initState c8Inp).2.1 }) :=
  ⟨⟨rfl, rfl⟩, c8_deterministic initState initState [] c8Inp rfl rfl⟩

/-! ## Claim C10 -/

/-- C10: once a host entry exists under a scope for a primary address, a
later insertion at the same scope and address — even carrying a different
management address `bm'` — leaves the entry's `ansible_host` unchanged and
only appends the VM to its `vms` list, and every other scope/address slot of
the tree is unmodified. -/
theorem c10_host_entry_frame (ch : Children) (scope addr : String) (he : HostEntry)
    (bm' : PCell) (vm : VMRecord) (s' a' : String)
    (h : hostAt ch scope addr = some he) :
    hostAt (insertVm ch scope bm' addr vm) scope addr =
      some { ansible_host := he.ansible_host, vms := he.vms ++ [vm] }
    ∧ (¬(s' = scope ∧ a' = addr) →
        hostAt (insertVm ch scope bm' addr vm) s' a' = hostAt ch s' a') := by
  rcases h1 : lookupA ch scope with _ | hosts
  · rw [hostAt, h1] at h
    exact absurd h (by simp)
  · rw [hostAt, h1] at h
    simp only [Option.some_bind] at h
    constructor
    · simp [hostAt, insertVm, lookupA_updOrAppend, lookupD, h1, h]
    · intro hne
      rcases Decidable.not_and_iff_or_not.mp hne with hne1 | hne1
      · simp [hostAt, insertVm, lookupA_updOrAppend, hne1]
      · by_cases hs : s' = scope
        · subst hs
          simp [hostAt, insertVm, lookupA_updOrAppend, lookupD, h1, hne1]
        · simp [hostAt, insertVm, lookupA_updOrAppend, hs]

/-! ## Claim C2 -/

theorem createVmConfig_of_empty (st : GenState) (vs : String) (rows : List VlanRow)
    (ty : String) (res : List (String × List (String × String)))
    (hres : (resolveInterfaces
        { st with vmCounters := setA st.vmCounters vs (lookupD st.vmCounters vs 0 + 1) }
        vs rows).1 = []) :
    createVmConfig st vs rows ty res =
      (none,
       { (resolveInterfaces
            { st with vmCounters := setA st.vmCounters vs (lookupD st.vmCounters vs 0 + 1) }
            vs rows).2.2 with
          vmCounters :=
            setA (resolveInterfaces
                { st with vmCounters := setA st.vmCounters vs (lookupD st.vmCounters vs 0 + 1) }
                vs rows).2.2.vmCounters vs
              (lookupD (resolveInterfaces
                  { st with vmCounters := setA st.vmCounters vs (lookupD st.vmCounters vs 0 + 1) }
                  vs rows).2.2.vmCounters vs 0 - 1) }) := by
  simp only [createVmConfig]
  rw [if_pos hres]

/-- C2: when a slot's interface resolution over all VLAN rows of its scope
yields an empty interface list, `create_vm_config` returns `None`, the slot
inserts nothing into the inventory tree (children and creation log are
unchanged), every scope's VM naming counter is left exactly as it was before
the slot was attempted, and the next successfully created VM in the scope
receives the name number the failed slot would have used. -/
theorem c2_failed_slot_rolls_back (st : GenState) (vlanSet : String) (cfgCell : PCell)
    (vlanRows : List VlanRow) (res : List (String × List (String × String)))
    (bm : PCell) (ch : Children) (log : List CreatedVM)
    (hty : slotVmType (some cfgCell) ≠ "" ∧ slotVmType (some cfgCell) ≠ "nan")
    (hres : (resolveInterfaces
        { st with vmCounters := setA st.vmCounters vlanSet (lookupD st.vmCounters vlanSet 0 + 1) }
        vlanSet vlanRows).1 = []) :
    (createVmConfig st vlanSet vlanRows (slotVmType (some cfgCell)) res).1 = none
    ∧ slotStep vlanSet bm vlanRows res (some cfgCell) (st, ch, log) =
        ((createVmConfig st vlanSet vlanRows (slotVmType (some cfgCell)) res).2, ch, log)
    ∧ (∀ sc, lookupD
          (createVmConfig st vlanSet vlanRows (slotVmType (some cfgCell)) res).2.vmCounters sc 0
        = lookupD st.vmCounters sc 0)
    ∧ (∀ (rows' : List VlanRow) (ty' : String)
         (res' : List (String × List (String × String))) (vm : VMRecord) (st2 : GenState),
        createVmConfig
            (createVmConfig st vlanSet vlanRows (slotVmType (some cfgCell)) res).2
            vlanSet rows' ty' res' = (some vm, st2) →
        vm.name = vlanSet ++ "_vm" ++ toString (lookupD st.vmCounters vlanSet 0 + 1)) := by
  have hcc := createVmConfig_of_empty st vlanSet vlanRows (slotVmType (some cfgCell)) res hres
  have hcnt : ∀ sc, lookupD
      (createVmConfig st vlanSet vlanRows (slotVmType (some cfgCell)) res).2.vmCounters sc 0
      = lookupD st.vmCounters sc 0 := by
    intro sc
    rw [hcc]
    dsimp only
    rw [resolveInterfaces_vmCounters]
    dsimp only
    rw [lookupD_setA_self]
    by_cases hsc : sc = vlanSet
    · subst hsc
      rw [lookupD_setA_self]
      omega
    · rw [lookupD_setA_ne _ _ _ _ _ hsc, lookupD_setA_ne _ _ _ _ _ hsc]
  refine ⟨by rw [hcc], ?_, hcnt, ?_⟩
  · unfold slotStep
    rw [if_neg (not_or.mpr ⟨hty.1, hty.2⟩)]
    rw [hcc]
  · intro rows' ty' res' vm st2 hnext
    rw [createVmConfig_name _ _ _ _ _ _ _ hnext, hcnt vlanSet]

/-- A VLAN row with neither pool column, used by the C2 witness: its scope's
interface resolution is empty. -/
def c2Row : VlanRow := ⟨"s2", some (.str "20"), none, none, none, none, none⟩

/-- Witness for C2 at a concrete state, scope and VLAN table. -/
theorem c2_failed_slot_rolls_back_witness :
    ((slotVmType (some (.str "small")) ≠ "" ∧ slotVmType (some (.str "small")) ≠ "nan")
     ∧ (resolveInterfaces
          { initState with
             vmCounters := setA initState.vmCounters "s2" (lookupD initState.vmCounters "s2" 0 + 1) }
          "s2" [c2Row]).1 = [])
    ∧ ((createVmConfig initState "s2" [c2Row] (slotVmType (some (.str "small"))) []).1 = none
       ∧ slotStep "s2" (.str "10.0.0.1") [c2Row] [] (some (.str "small")) (initState, [], []) =
           ((createVmConfig initState "s2" [c2Row] (slotVmType (some (.str "small"))) []).2, [], [])
       ∧ (∀ sc, lookupD
             (createVmConfig initState "s2" [c2Row] (slotVmType (some (.str "small"))) []).2.vmCounters sc 0
           = lookupD initState.vmCounters sc 0)
       ∧ (∀ (rows' : List VlanRow) (ty' : String)
            (res' : List (String × List (String × String))) (vm : VMRecord) (st2 : GenState),
           createVmConfig
               (createVmConfig initState "s2" [c2Row] (slotVmType (some (.str "small"))) []).2
               "s2" rows' ty' res' = (some vm, st2) →
           vm.name = "s2" ++ "_vm" ++ toString (lookupD initState.vmCounters "s2" 0 + 1))) :=
  ⟨⟨⟨by decide, by decide⟩, by decide⟩,
   c2_failed_slot_rolls_back initState "s2" (.str "small") [c2Row] []
     (.str "10.0.0.1") [] [] ⟨by decide, by decide⟩ (by decide)⟩

/-! ## Claim C3 -/

theorem string_dev_append (x bs : String) :
    x ++ " dev dpbr_" ++ bs = x ++ " dev " ++ ("dpbr_" ++ bs) := by
  have h : (" dev dpbr_" : String) = " dev " ++ "dpbr_" := rfl
  rw [String.append_assoc x " dev dpbr_" bs, h,
    String.append_assoc " dev " "dpbr_" bs,
    String.append_assoc x " dev " ("dpbr_" ++ bs)]

theorem createNetworkInterface_shape (st : GenState) (vs : String) (vlan : VlanRow)
    (cfg : NetConfig) (st' : GenState)
    (h : createNetworkInterface st vs vlan = (some cfg, st')) :
    ∃ bs : String, cfg.interface.bridge = "dpbr_" ++ bs ∧
      cfg.route = routeFor (pyStrip (getS vlan.otherVlansGw)) (pyStrip (getS vlan.vmlaunchGw))
        (pyStrip (getS vlan.vlanSubnet)) bs := by
  simp only [createNetworkInterface] at h
  split at h
  · exact absurd (congrArg Prod.fst h) (by simp)
  · split at h
    · exact absurd (congrArg Prod.fst h) (by simp)
    · split at h
      · exact absurd (congrArg Prod.fst h) (by simp)
      · split at h
        · exact absurd (congrArg Prod.fst h) (by simp)
        · split at h
          · exact absurd (congrArg Prod.fst h) (by simp)
          · simp only [Prod.mk.injEq, Option.some.injEq] at h
            exact ⟨_, congrArg (fun c => c.interface.bridge) h.1.symm,
                   congrArg (fun c => c.route) h.1.symm⟩

/-- C3 (amended): for a VLAN row on which the resolver succeeds, a route is
emitted iff the *string form* of the other-VLANs gateway cell is non-blank,
differs from the string form of the local gateway, and the subnet string is
non-blank and parses as an IPv4 network; the single route then reads
`"{network_address}/24 via {other_gw} dev {bridge}"` with host bits of the
subnet masked off.  (An absent — NaN — gateway cell stringifies to `"nan"`,
which counts as a present non-blank gateway here; see the counterexample.) -/
theorem c3_route_emission_amended (st : GenState) (vs : String) (vlan : VlanRow)
    (cfg : NetConfig) (st' : GenState) (r : String)
    (h : createNetworkInterface st vs vlan = (some cfg, st')) :
    cfg.route = some r ↔
      (pyStrip (getS vlan.otherVlansGw) ≠ "" ∧
       pyStrip (getS vlan.otherVlansGw) ≠ pyStrip (getS vlan.vmlaunchGw) ∧
       pyStrip (getS vlan.vlanSubnet) ≠ "" ∧
       ∃ na, pyIPv4NetworkNA (pyStrip (getS vlan.vlanSubnet)).data = some na ∧
         r = ipToStr na ++ "/24 via " ++ pyStrip (getS vlan.otherVlansGw) ++ " dev " ++
             cfg.interface.bridge) := by
  obtain ⟨bs, hb, hr⟩ := createNetworkInterface_shape st vs vlan cfg st' h
  rw [hr, hb]
  unfold routeFor
  split
  · rename_i hc
    rcases hna : pyIPv4NetworkNA (pyStrip (getS vlan.vlanSubnet)).data with _ | na
    · simp only [hna]
      constructor
      · intro hfalse; exact absurd hfalse (by simp)
      · rintro ⟨-, -, -, na', hna', -⟩
        exact absurd hna' (by simp)
    · simp only [hna]
      constructor
      · intro hsome
        have hrr := Option.some.inj hsome
        exact ⟨hc.1, hc.2.1, hc.2.2, na, rfl,
          by rw [← hrr, string_dev_append]⟩
      · rintro ⟨-, -, -, na', hna', hrr⟩
        cases Option.some.inj hna'
        rw [hrr, string_dev_append]
  · rename_i hc
    constructor
    · intro hfalse; exact absurd hfalse (by simp)
    · rintro ⟨hg1, hg2, hs1, -⟩
      exact absurd ⟨hg1, hg2, hs1⟩ hc

/-- The VLAN row of the C3 counterexample: an *absent* (NaN) other-VLANs
gateway cell, a present local gateway and a present subnet. -/
def c3xRow : VlanRow :=
  ⟨"s", some (.str "30"), some (.str "10.0.2.1"), none, some (.str "10.0.2.254"),
   some .nan, some (.str "10.0.2.0/24")⟩

/-- C3 counterexample: with the other-VLANs gateway cell absent (NaN), the
claim says no route may be emitted; the resolver nonetheless emits the route
`"10.0.2.0/24 via nan dev dpbr_30"`, because `str(nan).strip() = "nan"` is a
non-blank string different from the local gateway. -/
theorem c3_counterexample :
    c3xRow.otherVlansGw = some PCell.nan
    ∧ ((createNetworkInterface initState "s" c3xRow).1.map (fun c => c.route)) =
        some (some "10.0.2.0/24 via nan dev dpbr_30") :=
  ⟨rfl, rfl⟩

/-- The VLAN row of the C3 witness: distinct gateways and a subnet with host
bits set (`10.0.2.77/24`), whose network address is `10.0.2.0`. -/
def c3wRow : VlanRow :=
  ⟨"s", some (.str "30"), some (.str "10.0.2.1"), none, some (.str "10.0.2.254"),
   some (.str "10.0.3.254"), some (.str "10.0.2.77/24")⟩

/-- The interface/route configuration the resolver returns on `c3wRow`. -/
def c3wCfg : NetConfig :=
  ⟨⟨"dpbr_30", "10.0.2.1/24", some "10.0.2.254"⟩,
   some "10.0.2.0/24 via 10.0.3.254 dev dpbr_30"⟩

/-- The allocator state after the C3 witness resolution. -/
def c3wSt : GenState := ⟨[(("s", "30"), 1)], []⟩

/-- Witness for C3 (amended) at a concrete VLAN row. -/
theorem c3_route_emission_amended_witness :
    createNetworkInterface initState "s" c3wRow = (some c3wCfg, c3wSt)
    ∧ (c3wCfg.route = some "10.0.2.0/24 via 10.0.3.254 dev dpbr_30" ↔
        (pyStrip (getS c3wRow.otherVlansGw) ≠ "" ∧
         pyStrip (getS c3wRow.otherVlansGw) ≠ pyStrip (getS c3wRow.vmlaunchGw) ∧
         pyStrip (getS c3wRow.vlanSubnet) ≠ "" ∧
         ∃ na, pyIPv4NetworkNA (pyStrip (getS c3wRow.vlanSubnet)).data = some na ∧
           "10.0.2.0/24 via 10.0.3.254 dev dpbr_30" =
             ipToStr na ++ "/24 via " ++ pyStrip (getS c3wRow.otherVlansGw) ++ " dev " ++
               c3wCfg.interface.bridge)) :=
  ⟨by decide,
   c3_route_emission_amended initState "s" c3wRow c3wCfg c3wSt
     "10.0.2.0/24 via 10.0.3.254 dev dpbr_30" (by decide)⟩

/-! ## Claim C6 -/

/-- C6 counterexample: the bare token `"hello"` has invalid address syntax,
yet the expander *includes it verbatim in the result* (with no warning)
instead of skipping it — bare tokens are never validated. -/
theorem c6_counterexample :
    expandIpRangeStr "hello" = (["hello"], 0) ∧ parseIPv4 "hello".data = none :=
  ⟨rfl, rfl⟩

/-- C6 (amended): the expander is total and returns a (possibly empty) list:
blank input yields `([], 0)`; non-blank input folds the token handler over
the comma-separated tokens; blank tokens are skipped; dashed tokens with a
dot count other than 3 are skipped *silently*; dashed tokens with 3 dots but
non-numeric bounds are skipped *with a warning*; bare tokens (no dash) are
included verbatim with no address-syntax validation. -/
theorem c6_expander_amended :
    (∀ s : String, pyStrip s = "" → expandIpRangeStr s = ([], 0))
    ∧ (∀ s : String, pyStrip s ≠ "" → expandIpRangeStr s = expandParts (pySplit ',' s))
    ∧ (∀ (acc : List String × Nat) (part : String),
        pyStrip part = "" → handlePart acc part = acc)
    ∧ (∀ (acc : List String × Nat) (part : String),
        containsCh '-' (pyStrip part) = true → countCh '.' (pyStrip part) ≠ 3 →
        handlePart acc part = acc)
    ∧ (∀ (acc : List String × Nat) (part : String) (pre rng sa sb : List Char),
        containsCh '-' (pyStrip part) = true → countCh '.' (pyStrip part) = 3 →
        rsplitLast '.' (pyStrip part).data = some (pre, rng) →
        splitCh '-' rng = [sa, sb] → (pyInt sa = none ∨ pyInt sb = none) →
        handlePart acc part = (acc.1, acc.2 + 1))
    ∧ (∀ (acc : List String × Nat) (part : String),
        pyStrip part ≠ "" → containsCh '-' (pyStrip part) = false →
        handlePart acc part = (acc.1 ++ [pyStrip part], acc.2)) := by
  refine ⟨?_, ?_, ?_, ?_, ?_, ?_⟩
  · intro s h
    unfold expandIpRangeStr
    rw [if_pos h]
  · intro s h
    unfold expandIpRangeStr
    rw [if_neg h]
  · intro acc part h
    simp only [handlePart]
    rw [if_pos h]
  · intro acc part h2 h3
    have h1 : pyStrip part ≠ "" := by
      intro he
      rw [he] at h2
      exact absurd h2 (by decide)
    simp only [handlePart]
    rw [if_neg h1, h2, if_pos rfl, if_neg h3]
  · intro acc part pre rng sa sb h2 h3 h4 h5 hor
    have h1 : pyStrip part ≠ "" := by
      intro he
      rw [he] at h2
      exact absurd h2 (by decide)
    simp only [handlePart]
    rw [if_neg h1, h2, if_pos rfl, if_pos h3, h4]
    dsimp only
    rw [h5]
    dsimp only
    rcases hsa : pyInt sa with _ | a' <;> rcases hsb : pyInt sb with _ | b'
    · rfl
    · rfl
    · rfl
    · rcases hor with hor | hor
      · rw [hor] at hsa; cases hsa
      · rw [hor] at hsb; cases hsb
  · intro acc part h1 h2
    simp only [handlePart]
    rw [if_neg h1, h2, if_neg (by simp)]

/-- Witness for C6 (amended): each behavior at a concrete input — blank
input, blank token, wrong-octet-count range token (silently dropped),
non-numeric range bounds (dropped with one warning), and a bare token
included verbatim. -/
theorem c6_expander_amended_witness :
    (pyStrip "  " = "" ∧ expandIpRangeStr "  " = ([], 0))
    ∧ (pyStrip " , " ≠ "" ∧ expandIpRangeStr " , " = expandParts (pySplit ',' " , "))
    ∧ handlePart (["p"], 4) "  " = (["p"], 4)
    ∧ handlePart (["p"], 4) "1.2.5-6" = (["p"], 4)
    ∧ handlePart (["p"], 4) "10.0.0.a-b" = (["p"], 5)
    ∧ handlePart (["p"], 4) "hello" = (["p", "hello"], 4) :=
  ⟨⟨by decide, c6_expander_amended.1 "  " (by decide)⟩,
   ⟨by decide, c6_expander_amended.2.1 " , " (by decide)⟩,
   c6_expander_amended.2.2.1 (["p"], 4) "  " (by decide),
   c6_expander_amended.2.2.2.1 (["p"], 4) "1.2.5-6" (by decide) (by decide),
   c6_expander_amended.2.2.2.2.1 (["p"], 4) "10.0.0.a-b" "10.0.0".data "a-b".data
     "a".data "b".data (by decide) (by decide) (by decide) (by decide)
     (Or.inl (by decide)),
   c6_expander_amended.2.2.2.2.2 (["p"], 4) "hello" (by decide) (by decide)⟩

/-! ## Claim C7 -/

/-- C7 counterexample: `VCPU = "abc"` is present and non-blank, so the claim
requires the original string to be kept when integer coercion fails; the
resolver instead *drops* the field entirely — the resource map has no `VCPU`
entry at all. -/
theorem c7_counterexample :
    extractVmResources [("VCPU", "abc"), ("RAM", "8192")] = [("RAM", 8192)]
    ∧ lookupA (extractVmResources [("VCPU", "abc"), ("RAM", "8192")]) "VCPU" = none :=
  ⟨rfl, rfl⟩

theorem sizingEntry_eq (res : List (String × String)) (k : String) :
    sizingEntry res k =
      (match lookupA res k with
       | none => none
       | some v => if v = "" then none else pyIntFloat v.data).map (fun n => (k, n)) := by
  unfold sizingEntry
  rcases lookupA res k with _ | v
  · rfl
  · by_cases hv : v = "" <;> simp [hv]

theorem sizingEntry_key (res : List (String × String)) (k : String) (p : String × Int)
    (h : sizingEntry res k = some p) : p.1 = k := by
  rw [sizingEntry_eq] at h
  rcases hm : (match lookupA res k with
      | none => none
      | some v => if v = "" then none else pyIntFloat v.data) with _ | n
  · rw [hm] at h
    exact absurd h (by simp)
  · rw [hm] at h
    simp only [Option.map_some'] at h
    cases Option.some.inj h
    rfl

/-- C7 (amended): every sizing field (`VCPU`, `RAM`, `DataDiskSize`) enters
the resource map exactly when it is present and non-blank and its value is
coercible by `int(float(·))` (so `"4"` and `"4.0"` both yield 4); when
coercion fails the field is *dropped with a warning* — the keep-the-original-
string fallback applies to the partition map, not to sizing fields. -/
theorem c7_sizing_amended (res : List (String × String)) (k : String)
    (hk : k = "VCPU" ∨ k = "RAM" ∨ k = "DataDiskSize") :
    lookupA (extractVmResources res) k =
      (match lookupA res k with
       | none => none
       | some v => if v = "" then none else pyIntFloat v.data)
    ∧ pyIntFloat "4".data = some 4 ∧ pyIntFloat "4.0".data = some 4 := by
  refine ⟨?_, rfl, rfl⟩
  rcases hk with rfl | rfl | rfl
  · rcases hm : (match lookupA res "VCPU" with
        | none => none
        | some v => if v = "" then none else pyIntFloat v.data) with _ | n
    · have he : sizingEntry res "VCPU" = none := by
        rw [sizingEntry_eq, hm]; rfl
      rcases e2 : sizingEntry res "RAM" with _ | p2 <;>
        rcases e3 : sizingEntry res "DataDiskSize" with _ | p3
      · simp [hm, extractVmResources, he, e2, e3, lookupA]
      · simp [hm, extractVmResources, he, e2, e3, lookupA, sizingEntry_key _ _ _ e3]
      · simp [hm, extractVmResources, he, e2, e3, lookupA, sizingEntry_key _ _ _ e2]
      · simp [hm, extractVmResources, he, e2, e3, lookupA,
          sizingEntry_key _ _ _ e2, sizingEntry_key _ _ _ e3]
    · have he : sizingEntry res "VCPU" = some ("VCPU", n) := by
        rw [sizingEntry_eq, hm]; rfl
      simp [hm, extractVmResources, he, lookupA]
  · rcases hm : (match lookupA res "RAM" with
        | none => none
        | some v => if v = "" then none else pyIntFloat v.data) with _ | n
    · have he : sizingEntry res "RAM" = none := by
        rw [sizingEntry_eq, hm]; rfl
      rcases e1 : sizingEntry res "VCPU" with _ | p1 <;>
        rcases e3 : sizingEntry res "DataDiskSize" with _ | p3
      · simp [hm, extractVmResources, he, e1, e3, lookupA]
      · simp [hm, extractVmResources, he, e1, e3, lookupA, sizingEntry_key _ _ _ e3]
      · simp [hm, extractVmResources, he, e1, e3, lookupA, sizingEntry_key _ _ _ e1]
      · simp [hm, extractVmResources, he, e1, e3, lookupA,
          sizingEntry_key _ _ _ e1, sizingEntry_key _ _ _ e3]
    · have he : sizingEntry res "RAM" = some ("RAM", n) := by
        rw [sizingEntry_eq, hm]; rfl
      rcases e1 : sizingEntry res "VCPU" with _ | p1
      · simp [hm, extractVmResources, he, e1, lookupA]
      · simp [hm, extractVmResources, he, e1, lookupA, sizingEntry_key _ _ _ e1]
  · rcases hm : (match lookupA res "DataDiskSize" with
        | none => none
        | some v => if v = "" then none else pyIntFloat v.data) with _ | n
    · have he : sizingEntry res "DataDiskSize" = none := by
        rw [sizingEntry_eq, hm]; rfl
      rcases e1 : sizingEntry res "VCPU" with _ | p1 <;>
        rcases e2 : sizingEntry res "RAM" with _ | p2
      · simp [hm, extractVmResources, he, e1, e2, lookupA]
      · simp [hm, extractVmResources, he, e1, e2, lookupA, sizingEntry_key _ _ _ e2]
      · simp [hm, extractVmResources, he, e1, e2, lookupA, sizingEntry_key _ _ _ e1]
      · simp [hm, extractVmResources, he, e1, e2, lookupA,
          sizingEntry_key _ _ _ e1, sizingEntry_key _ _ _ e2]
    · have he : sizingEntry res "DataDiskSize" = some ("DataDiskSize", n) := by
        rw [sizingEntry_eq, hm]; rfl
      rcases e1 : sizingEntry res "VCPU" with _ | p1 <;>
        rcases e2 : sizingEntry res "RAM" with _ | p2
      · simp [hm, extractVmResources, he, e1, e2, lookupA]
      · simp [hm, extractVmResources, he, e1, e2, lookupA, sizingEntry_key _ _ _ e2]
      · simp [hm, extractVmResources, he, e1, e2, lookupA, sizingEntry_key _ _ _ e1]
      · simp [hm, extractVmResources, he, e1, e2, lookupA,
          sizingEntry_key _ _ _ e1, sizingEntry_key _ _ _ e2]

/-- Witness for C7 (amended) at a resource template with `VCPU = "4.0"`. -/
theorem c7_sizing_amended_witness :
    (("VCPU" : String) = "VCPU" ∨ ("VCPU" : String) = "RAM" ∨
      ("VCPU" : String) = "DataDiskSize")
    ∧ (lookupA (extractVmResources [("VCPU", "4.0"), ("Extra", "x")]) "VCPU" =
        (match lookupA [("VCPU", "4.0"), ("Extra", "x")] "VCPU" with
         | none => none
         | some v => if v = "" then none else pyIntFloat v.data)
       ∧ pyIntFloat "4".data = some 4 ∧ pyIntFloat "4.0".data = some 4) :=
  ⟨Or.inl rfl, c7_sizing_amended [("VCPU", "4.0"), ("Extra", "x")] "VCPU" (Or.inl rfl)⟩

/-! ## Claim C9 -/

theorem pyRangeIncl_of_gt (a b : Int) (h : b < a) : pyRangeIncl a b = [] := by
  unfold pyRangeIncl
  have hz : (b + 1 - a).toNat = 0 := Int.toNat_of_nonpos (by omega)
  rw [hz]
  rfl

/-- C9: a well-formed range token whose start last-octet exceeds its end
last-octet contributes no addresses, no exception and no warning — the
handler returns its accumulator unchanged — and the remaining tokens of the
same input are still expanded exactly as they would be without it. -/
theorem c9_reversed_range_empty (acc : List String × Nat) (part : String)
    (pre rng sa sb : List Char) (a b : Int)
    (h1 : pyStrip part ≠ "")
    (h2 : containsCh '-' (pyStrip part) = true)
    (h3 : countCh '.' (pyStrip part) = 3)
    (h4 : rsplitLast '.' (pyStrip part).data = some (pre, rng))
    (h5 : splitCh '-' rng = [sa, sb])
    (h6 : pyInt sa = some a) (h7 : pyInt sb = some b) (h8 : b < a) :
    handlePart acc part = acc
    ∧ (∀ parts : List String, expandParts (part :: parts) = expandParts parts) := by
  have key : ∀ acc' : List String × Nat, handlePart acc' part = acc' := by
    intro acc'
    simp only [handlePart]
    rw [if_neg h1, h2, if_pos rfl, if_pos h3, h4]
    dsimp only
    rw [h5]
    dsimp only
    rw [h6, h7]
    dsimp only
    rw [pyRangeIncl_of_gt a b h8]
    simp
  refine ⟨key acc, fun parts => ?_⟩
  unfold expandParts
  rw [List.foldl_cons, key]

/-- Witness for C9 at the reversed range token `"10.0.0.5-3"` followed by a
second, normal token. -/
theorem c9_reversed_range_empty_witness :
    (pyStrip "10.0.0.5-3" ≠ ""
     ∧ containsCh '-' (pyStrip "10.0.0.5-3") = true
     ∧ countCh '.' (pyStrip "10.0.0.5-3") = 3
     ∧ rsplitLast '.' (pyStrip "10.0.0.5-3").data = some ("10.0.0".data, "5-3".data)
     ∧ splitCh '-' "5-3".data = ["5".data, "3".data]
     ∧ pyInt "5".data = some 5 ∧ pyInt "3".data = some 3 ∧ (3 : Int) < 5)
    ∧ (handlePart (["q"], 2) "10.0.0.5-3" = (["q"], 2)
       ∧ (∀ parts : List String,
            expandParts ("10.0.0.5-3" :: parts) = expandParts parts)) :=
  ⟨⟨by decide, by decide, by decide, by decide, by decide, by decide, by decide, by decide⟩,
   c9_reversed_range_empty (["q"], 2) "10.0.0.5-3" "10.0.0".data "5-3".data
     "5".data "3".data 5 3 (by decide) (by decide) (by decide) (by decide)
     (by decide) (by decide) (by decide) (by decide)⟩

/-- A pre-existing host entry for the C10 witness. -/
def c10Entry : HostEntry :=
  ⟨.str "10.0.0.1", [⟨"s_vm1", "t", [], none, [], []⟩]⟩

/-- A pre-existing children tree for the C10 witness. -/
def c10Ch : Children := [("s", [("10.0.0.5", c10Entry)])]

/-- The VM appended by the C10 witness. -/
def c10Vm : VMRecord := ⟨"s_vm2", "t", [], none, [], []⟩

/-- Witness for C10: inserting from a row with a *different* management
address `10.9.9.9` appends to the existing entry and keeps its
`ansible_host`. -/
theorem c10_host_entry_frame_witness :
    hostAt c10Ch "s" "10.0.0.5" = some c10Entry
    ∧ (hostAt (insertVm c10Ch "s" (.str "10.9.9.9") "10.0.0.5" c10Vm) "s" "10.0.0.5" =
        some { ansible_host := c10Entry.ansible_host, vms := c10Entry.vms ++ [c10Vm] }
       ∧ (¬(("other" : String) = "s" ∧ ("10.0.0.7" : String) = "10.0.0.5") →
           hostAt (insertVm c10Ch "s" (.str "10.9.9.9") "10.0.0.5" c10Vm) "other" "10.0.0.7" =
             hostAt c10Ch "other" "10.0.0.7")) :=
  ⟨by decide,
   c10_host_entry_frame c10Ch "s" "10.0.0.5" c10Entry (.str "10.9.9.9") c10Vm
     "other" "10.0.0.7" (by decide)⟩

end AAP
